/-
Verification of the Scoring & Financial Modeling Engine of the
fiber-expansion dashboard backend.

Shallow embedding of `backend/app/scoring.py` and
`backend/app/routers/costs.py`.  Python floats are modelled as rationals
(ℚ), Python ints as ℤ, nullable values as `Option`, and datetimes as a
rational number of days; "now" is passed explicitly where the source
calls `datetime.now()`.  Python-specific behaviours are modelled
faithfully: `x or y` treats 0 as falsy, `round(x, 2)` rounds half to
even at two decimals, and `int(x)` truncates toward zero.
-/
import Mathlib

namespace Fiber

/-- Python `round` to an integer: round half to even. -/
def roundHalfEven (q : ℚ) : ℤ :=
  if q - ⌊q⌋ < 1/2 then ⌊q⌋
  else if 1/2 < q - ⌊q⌋ then ⌊q⌋ + 1
  else if ⌊q⌋ % 2 = 0 then ⌊q⌋ else ⌊q⌋ + 1

/-- Python `round(x, 2)`. -/
def round2 (q : ℚ) : ℚ := (roundHalfEven (100 * q) : ℚ) / 100

/-- Python `int(x)`: truncation toward zero. -/
def pyTrunc (q : ℚ) : ℤ := if 0 ≤ q then ⌊q⌋ else ⌈q⌉

/-- `PropertyType` enum from `models.py`. -/
inductive PropertyType where
  | MDU
  | SUBDIVISION
deriving DecidableEq

/-- Raw input value recorded in one line of the score breakdown
(`raw_value` in `scoring.py` holds ints, floats, `None`, or the HOA
flag pair depending on the factor). -/
inductive RawValue where
  | int : Option ℤ → RawValue
  | num : Option ℚ → RawValue
  | hoa : Bool → Bool → RawValue
deriving DecidableEq

/-- One entry of the `breakdown` list built by `calculate_score`. -/
structure FactorResult where
  factor : String
  raw_value : RawValue
  weight : ℚ
  points : ℚ
  unit : String
deriving DecidableEq

/-- The fields of the `Property` ORM model (`models.py`) that the
scoring engine reads or writes, plus representative unrelated fields
for the frame property. -/
structure Property where
  name : String := ""
  property_type : PropertyType
  county : String := ""
  units : Option ℤ := none
  lots : Option ℤ := none
  break_ground_date : Option ℚ := none
  fiber_distance_gvtc : Option ℚ := none
  fiber_distance_lease : Option ℚ := none
  competitor_count : Option ℤ := none
  median_income : Option ℚ := none
  population_density : Option ℚ := none
  nearby_schools : Option ℤ := none
  nearby_libraries : Option ℤ := none
  score : Option ℚ := none
  tier : Option ℤ := none
  score_breakdown : Option (List FactorResult) := none
  last_scored_at : Option ℚ := none
  notes : String := ""

/-- `MIN_UNKNOWN_SCORE` from `scoring.py`. -/
def MIN_UNKNOWN_SCORE : ℚ := 35

/-- `calculate_scale_points_mdu`; `if not units` treats both `None`
and 0 as unknown. -/
def calculate_scale_points_mdu (units : Option ℤ) : ℚ :=
  match units with
  | none => MIN_UNKNOWN_SCORE
  | some u =>
    if u = 0 then MIN_UNKNOWN_SCORE
    else if 400 ≤ u then 100
    else if 250 ≤ u then 85
    else if 150 ≤ u then 70
    else if 75 ≤ u then 55
    else MIN_UNKNOWN_SCORE

/-- `calculate_scale_points_sfu`. -/
def calculate_scale_points_sfu (lots : Option ℤ) : ℚ :=
  match lots with
  | none => MIN_UNKNOWN_SCORE
  | some l =>
    if l = 0 then MIN_UNKNOWN_SCORE
    else if 1000 ≤ l then 100
    else if 600 ≤ l then 85
    else if 300 ≤ l then 70
    else if 150 ≤ l then 55
    else MIN_UNKNOWN_SCORE

/-- `calculate_fiber_proximity_points`; this evaluator checks
`distance_miles is None`, so a present distance of 0 scores 100. -/
def calculate_fiber_proximity_points (distance_miles : Option ℚ) : ℚ :=
  match distance_miles with
  | none => 40
  | some d =>
    if d ≤ 1/4 then 100
    else if d ≤ 1/2 then 80
    else if d ≤ 1 then 60
    else if d ≤ 2 then 40
    else 20

/-- `calculate_competitor_points`; checks `count is None`. -/
def calculate_competitor_points (count : Option ℤ) : ℚ :=
  match count with
  | none => 50
  | some c =>
    if c = 0 then 100
    else if c = 1 then 80
    else if c = 2 then 60
    else 30

/-- `calculate_income_points`; `if not median_income` treats both
`None` and 0 as unknown. -/
def calculate_income_points (median_income : Option ℚ) : ℚ :=
  match median_income with
  | none => 50
  | some m =>
    if m = 0 then 50
    else if 110000 ≤ m then 100
    else if 85000 ≤ m then 80
    else if 65000 ≤ m then 60
    else if 45000 ≤ m then 40
    else 25

/-- `calculate_density_points`; `if not density` treats both `None`
and 0 as unknown. -/
def calculate_density_points (density : Option ℚ) : ℚ :=
  match density with
  | none => 50
  | some d =>
    if d = 0 then 50
    else if 3000 ≤ d then 100
    else if 2000 ≤ d then 80
    else if 1200 ≤ d then 60
    else if 600 ≤ d then 40
    else 25

/-- `calculate_erate_points`; `(schools or 0) + (libraries or 0)`. -/
def calculate_erate_points (schools libraries : Option ℤ) : ℚ :=
  let total := schools.getD 0 + libraries.getD 0
  if 3 ≤ total then 100
  else if total = 2 then 80
  else if total = 1 then 60
  else 30

/-- `calculate_timing_points`; `(break_ground_date - now).days` floors
the day difference (`timedelta.days` floors toward negative infinity). -/
def calculate_timing_points (break_ground_date : Option ℚ) (now : ℚ) : ℚ :=
  match break_ground_date with
  | none => 40
  | some d =>
    let days_away : ℤ := ⌊d - now⌋
    if days_away < 0 then 50
    else if days_away ≤ 180 then 100
    else if days_away ≤ 365 then 70
    else if days_away ≤ 730 then 40
    else 20

/-- `calculate_relationship_points`. -/
def calculate_relationship_points (avg_strength : ℚ) : ℚ :=
  if 9/2 ≤ avg_strength then 100
  else if 7/2 ≤ avg_strength then 80
  else if 5/2 ≤ avg_strength then 60
  else if 3/2 ≤ avg_strength then 40
  else 20

/-- `calculate_hoa_readiness_points`. -/
def calculate_hoa_readiness_points (has_hoa has_contact : Bool) : ℚ :=
  if has_hoa && has_contact then 100
  else if has_hoa then 70
  else 40

/-- `determine_tier`. -/
def determine_tier (score : ℚ) : ℤ :=
  if 75 ≤ score then 1
  else if 50 ≤ score then 2
  else 3

/-- A weight set: a Python dict from factor identifier to weight,
modelled as a partial map. -/
def WeightSet : Type := String → Option ℚ

/-- `DEFAULT_WEIGHTS` from `scoring.py` (0.25 = 1/4, 0.20 = 1/5,
0.15 = 3/20, 0.10 = 1/10, 0.05 = 1/20). -/
def DEFAULT_WEIGHTS (pt : PropertyType) : WeightSet :=
  match pt with
  | .MDU => fun k =>
    match k with
    | "scale" => some (1/4)
    | "fiber" => some (1/5)
    | "competitors" => some (3/20)
    | "income" => some (1/10)
    | "density" => some (1/10)
    | "erate" => some (1/10)
    | "timing" => some (1/20)
    | "relationship" => some (1/20)
    | _ => none
  | .SUBDIVISION => fun k =>
    match k with
    | "scale" => some (1/4)
    | "fiber" => some (3/20)
    | "competitors" => some (3/20)
    | "income" => some (3/20)
    | "density" => some (1/10)
    | "erate" => some (1/10)
    | "timing" => some (1/20)
    | "hoa_readiness" => some (1/20)
    | _ => none

/-- Python `weights.get(key, default)`. -/
def wget (w : WeightSet) (k : String) (d : ℚ) : ℚ := (w k).getD d

/-- `prop.fiber_distance_gvtc or float('inf')`: Python `or` treats
both `None` and `0.0` as falsy, and we represent `float('inf')` as
`none`. -/
def orInf (o : Option ℚ) : Option ℚ :=
  match o with
  | none => none
  | some x => if x = 0 then none else some x

/-- `min` over ℚ extended with infinity represented as `none`; the
source's `if best == float('inf'): best = None` is the identity under
this representation. -/
def minInf (a b : Option ℚ) : Option ℚ :=
  match a, b with
  | none, b => b
  | some x, none => some x
  | some x, some y => some (min x y)

/-- Return value of `calculate_score`. -/
structure ScoreOutcome where
  total_score : ℚ
  tier : ℤ
  breakdown : List FactorResult
  calculated_at : ℚ
deriving DecidableEq

/-- `calculate_score` from `scoring.py`.  `wopt = none` means the
caller omitted the `weights` argument; `relationship_strength`,
`has_hoa`, `has_hoa_contact` default to `3.0`, `False`, `False` at the
call sites that omit them; `now` stands for `datetime.now()`. -/
def calculate_score (prop : Property) (wopt : Option WeightSet)
    (relationship_strength : ℚ) (has_hoa : Bool) (has_hoa_contact : Bool)
    (now : ℚ) : ScoreOutcome :=
  let prop_type := prop.property_type
  let weights := wopt.getD (DEFAULT_WEIGHTS prop_type)
  -- Scale points (Units for MDU, Lots for SFU)
  let scale_raw : Option ℤ :=
    match prop_type with
    | .MDU => prop.units
    | .SUBDIVISION => prop.lots
  let scale_points :=
    match prop_type with
    | .MDU => calculate_scale_points_mdu prop.units
    | .SUBDIVISION => calculate_scale_points_sfu prop.lots
  let scale_unit :=
    match prop_type with
    | .MDU => "units"
    | .SUBDIVISION => "lots"
  let scale_weight := wget weights "scale" (1/4)
  let scale_weighted := scale_points * scale_weight
  -- Fiber proximity
  let best_fiber_distance :=
    minInf (orInf prop.fiber_distance_gvtc) (orInf prop.fiber_distance_lease)
  let fiber_points := calculate_fiber_proximity_points best_fiber_distance
  let fiber_weight := wget weights "fiber" (1/5)
  let fiber_weighted := fiber_points * fiber_weight
  -- Competitors
  let competitor_points := calculate_competitor_points prop.competitor_count
  let competitor_weight := wget weights "competitors" (3/20)
  let competitor_weighted := competitor_points * competitor_weight
  -- Income
  let income_points := calculate_income_points prop.median_income
  let income_weight := wget weights "income" (1/10)
  let income_weighted := income_points * income_weight
  -- Density
  let density_points := calculate_density_points prop.population_density
  let density_weight := wget weights "density" (1/10)
  let density_weighted := density_points * density_weight
  -- E-Rate anchors
  let erate_points := calculate_erate_points prop.nearby_schools prop.nearby_libraries
  let erate_weight := wget weights "erate" (1/10)
  let erate_weighted := erate_points * erate_weight
  -- Timing
  let timing_points := calculate_timing_points prop.break_ground_date now
  let timing_weight := wget weights "timing" (1/20)
  let timing_weighted := timing_points * timing_weight
  let days_away : Option ℤ := prop.break_ground_date.map (fun d => ⌊d - now⌋)
  -- Relationship or HOA readiness (depending on type)
  let eighth : FactorResult :=
    match prop_type with
    | .MDU =>
      let rel_points := calculate_relationship_points relationship_strength
      let rel_weight := wget weights "relationship" (1/20)
      { factor := "relationship", raw_value := .num (some relationship_strength),
        weight := rel_weight, points := round2 (rel_points * rel_weight),
        unit := "strength" }
    | .SUBDIVISION =>
      let hoa_points := calculate_hoa_readiness_points has_hoa has_hoa_contact
      let hoa_weight := wget weights "hoa_readiness" (1/20)
      { factor := "hoa_readiness", raw_value := .hoa has_hoa has_hoa_contact,
        weight := hoa_weight, points := round2 (hoa_points * hoa_weight),
        unit := "readiness" }
  let eighth_weighted : ℚ :=
    match prop_type with
    | .MDU => calculate_relationship_points relationship_strength * wget weights "relationship" (1/20)
    | .SUBDIVISION => calculate_hoa_readiness_points has_hoa has_hoa_contact * wget weights "hoa_readiness" (1/20)
  let total_weighted_score :=
    scale_weighted + fiber_weighted + competitor_weighted + income_weighted +
      density_weighted + erate_weighted + timing_weighted + eighth_weighted
  let breakdown : List FactorResult :=
    [ { factor := "scale", raw_value := .int scale_raw, weight := scale_weight,
        points := round2 scale_weighted, unit := scale_unit },
      { factor := "fiber_proximity", raw_value := .num best_fiber_distance,
        weight := fiber_weight, points := round2 fiber_weighted, unit := "miles" },
      { factor := "competitors", raw_value := .int prop.competitor_count,
        weight := competitor_weight, points := round2 competitor_weighted, unit := "count" },
      { factor := "income", raw_value := .num prop.median_income,
        weight := income_weight, points := round2 income_weighted, unit := "dollars" },
      { factor := "density", raw_value := .num prop.population_density,
        weight := density_weight, points := round2 density_weighted, unit := "per_sq_mi" },
      { factor := "erate_anchors",
        raw_value := .int (some (prop.nearby_schools.getD 0 + prop.nearby_libraries.getD 0)),
        weight := erate_weight, points := round2 erate_weighted, unit := "count" },
      { factor := "timing", raw_value := .int days_away,
        weight := timing_weight, points := round2 timing_weighted, unit := "days" },
      eighth ]
  let final_score := round2 (min total_weighted_score 100)
  { total_score := final_score,
    tier := determine_tier final_score,
    breakdown := breakdown,
    calculated_at := now }

/-- `recalculate_property_score` from `scoring.py`: calls
`calculate_score(prop)` with every optional argument at its default
(`weights=None`, `relationship_strength=3.0`, `has_hoa=False`,
`has_hoa_contact=False`) and writes the four result fields back. -/
def recalculate_property_score (prop : Property) (now : ℚ) : Property :=
  let score_result := calculate_score prop none 3 false false now
  { prop with
    score := some score_result.total_score,
    tier := some score_result.tier,
    score_breakdown := some score_result.breakdown,
    last_scored_at := some now }

/-- The fields of the `PropertyCost` ORM model (`models.py`) used by
`calculate_derived_costs`, plus representative unrelated fields. -/
structure PropertyCost where
  property_id : ℤ := 0
  build_cost : Option ℚ := none
  lateral_cost : Option ℚ := none
  make_ready_cost : Option ℚ := none
  drop_cost : Option ℚ := none
  equipment_cost : Option ℚ := none
  lease_monthly : Option ℚ := none
  lease_term_months : Option ℤ := none
  estimated_take_rate : Option ℚ := none
  arpu : Option ℚ := none
  total_capex : Option ℚ := none
  cost_per_unit : Option ℚ := none
  estimated_monthly_revenue : Option ℚ := none
  payback_months : Option ℤ := none
  notes : String := ""
deriving DecidableEq

/-- `prop.units if prop.property_type.value == "MDU" else prop.lots`. -/
def unit_count (prop : Property) : Option ℤ :=
  if prop.property_type = .MDU then prop.units else prop.lots

/-- Take-rate normalization inside `calculate_derived_costs`:
`take_rate / 100 if take_rate > 1 else take_rate`. -/
def normalize_take_rate (t : ℚ) : ℚ := if 1 < t then t / 100 else t

/-- `calculate_derived_costs` from `routers/costs.py`.  Python
truthiness is modelled exactly: `cost.estimated_take_rate and cost.arpu
and unit_count` requires all three present AND nonzero, and
`cost.total_capex` in the payback guard requires the computed capex to
be nonzero. -/
def calculate_derived_costs (cost : PropertyCost) (prop : Property) : PropertyCost :=
  -- Total CAPEX
  let total_capex : ℚ :=
    cost.build_cost.getD 0 + cost.lateral_cost.getD 0 + cost.make_ready_cost.getD 0 +
      cost.drop_cost.getD 0 + cost.equipment_cost.getD 0
  -- Cost per unit/lot
  let uc := unit_count prop
  let cost_per_unit : Option ℚ :=
    match uc with
    | some n => if n ≠ 0 ∧ 0 < n then some (total_capex / n) else none
    | none => none
  -- Estimated monthly revenue
  let estimated_monthly_revenue : Option ℚ :=
    match cost.estimated_take_rate, cost.arpu, uc with
    | some t, some a, some n =>
      if t ≠ 0 ∧ a ≠ 0 ∧ n ≠ 0 then
        some ((n : ℚ) * normalize_take_rate t * a)
      else none
    | _, _, _ => none
  -- Payback months: `cost.estimated_monthly_revenue and
  -- cost.estimated_monthly_revenue > 0 and cost.total_capex`; a `None`
  -- revenue and a 0.0 revenue are both falsy, which `getD 0 ≠ 0`
  -- captures exactly, and under that guard `getD 0` is the revenue.
  let payback_months : Option ℤ :=
    if estimated_monthly_revenue.getD 0 ≠ 0 ∧ 0 < estimated_monthly_revenue.getD 0 ∧
        total_capex ≠ 0 then
      let monthly_profit := estimated_monthly_revenue.getD 0 - cost.lease_monthly.getD 0
      if 0 < monthly_profit then some (pyTrunc (total_capex / monthly_profit))
      else none
    else none
  { cost with
    total_capex := some total_capex,
    cost_per_unit := cost_per_unit,
    estimated_monthly_revenue := estimated_monthly_revenue,
    payback_months := payback_months }

/-! Helper lemmas about rounding and the ranges of the factor
evaluators. -/

theorem roundHalfEven_le (x : ℚ) : (roundHalfEven x : ℚ) ≤ x + 1/2 := by
  have hfl := Int.floor_le x
  have hlt := Int.lt_floor_add_one x
  unfold roundHalfEven
  split_ifs <;> push_cast <;> linarith

theorem le_roundHalfEven (x : ℚ) : x - 1/2 ≤ (roundHalfEven x : ℚ) := by
  have hfl := Int.floor_le x
  have hlt := Int.lt_floor_add_one x
  unfold roundHalfEven
  split_ifs <;> push_cast <;> linarith

theorem round2_bounds (q : ℚ) (h0 : 0 ≤ q) (h1 : q ≤ 100) :
    0 ≤ round2 q ∧ round2 q ≤ 100 := by
  have hle := roundHalfEven_le (100 * q)
  have hge := le_roundHalfEven (100 * q)
  have hzlo : (-1 : ℤ) < roundHalfEven (100 * q) := by
    have : (-1 : ℚ) < (roundHalfEven (100 * q) : ℚ) := by linarith
    exact_mod_cast this
  have hzhi : roundHalfEven (100 * q) < 10001 := by
    have : (roundHalfEven (100 * q) : ℚ) < 10001 := by linarith
    exact_mod_cast this
  have hlo : (0 : ℚ) ≤ (roundHalfEven (100 * q) : ℚ) := by exact_mod_cast hzlo
  have hhi : (roundHalfEven (100 * q) : ℚ) ≤ 10000 := by
    have : roundHalfEven (100 * q) ≤ 10000 := by omega
    exact_mod_cast this
  unfold round2
  constructor <;> [positivity; linarith]

theorem pyTrunc_of_nonneg (q : ℚ) (h : 0 ≤ q) : pyTrunc q = ⌊q⌋ := if_pos h

theorem scale_points_mdu_range (u : Option ℤ) :
    0 ≤ calculate_scale_points_mdu u ∧ calculate_scale_points_mdu u ≤ 100 := by
  cases u <;> simp only [calculate_scale_points_mdu, MIN_UNKNOWN_SCORE] <;>
    (try split_ifs) <;> norm_num

theorem scale_points_sfu_range (l : Option ℤ) :
    0 ≤ calculate_scale_points_sfu l ∧ calculate_scale_points_sfu l ≤ 100 := by
  cases l <;> simp only [calculate_scale_points_sfu, MIN_UNKNOWN_SCORE] <;>
    (try split_ifs) <;> norm_num

theorem fiber_points_range (d : Option ℚ) :
    0 ≤ calculate_fiber_proximity_points d ∧ calculate_fiber_proximity_points d ≤ 100 := by
  cases d <;> simp only [calculate_fiber_proximity_points] <;> (try split_ifs) <;> norm_num

theorem competitor_points_range (c : Option ℤ) :
    0 ≤ calculate_competitor_points c ∧ calculate_competitor_points c ≤ 100 := by
  cases c <;> simp only [calculate_competitor_points] <;> (try split_ifs) <;> norm_num

theorem income_points_range (m : Option ℚ) :
    0 ≤ calculate_income_points m ∧ calculate_income_points m ≤ 100 := by
  cases m <;> simp only [calculate_income_points] <;> (try split_ifs) <;> norm_num

theorem density_points_range (d : Option ℚ) :
    0 ≤ calculate_density_points d ∧ calculate_density_points d ≤ 100 := by
  cases d <;> simp only [calculate_density_points] <;> (try split_ifs) <;> norm_num

theorem erate_points_range (s l : Option ℤ) :
    0 ≤ calculate_erate_points s l ∧ calculate_erate_points s l ≤ 100 := by
  simp only [calculate_erate_points]
  split_ifs <;> norm_num

theorem timing_points_range (d : Option ℚ) (now : ℚ) :
    0 ≤ calculate_timing_points d now ∧ calculate_timing_points d now ≤ 100 := by
  cases d <;> simp only [calculate_timing_points] <;> (try split_ifs) <;> norm_num

theorem relationship_points_range (s : ℚ) :
    0 ≤ calculate_relationship_points s ∧ calculate_relationship_points s ≤ 100 := by
  simp only [calculate_relationship_points]
  split_ifs <;> norm_num

theorem hoa_points_range (h c : Bool) :
    0 ≤ calculate_hoa_readiness_points h c ∧ calculate_hoa_readiness_points h c ≤ 100 := by
  simp only [calculate_hoa_readiness_points]
  split_ifs <;> norm_num

/-! Concrete inputs used by the claim theorems below. -/

/-- An MDU property whose owned-network fiber distance is exactly 0
miles and whose lease-partner distance is absent. -/
def propFiberZero : Property := { property_type := .MDU, fiber_distance_gvtc := some 0 }

/-- An MDU property with 100 units and no other data. -/
def mdu100 : Property := { property_type := .MDU, units := some 100 }

/-! Claim theorems. -/

/-- Claim C1 (code bug): on a property whose owned-network distance is
present and exactly 0 miles (lease distance absent), `calculate_score`
records the fiber factor with raw value `None` and the absent-default
40 points (weighted 40 × 0.20 = 8), even though the evaluator
`calculate_fiber_proximity_points` itself scores a present distance of
0 as 100; the `or float('inf')` idiom in the aggregator treats the
present 0.0 as falsy. -/
theorem C1_zero_distance_scored_as_absent :
    ((calculate_score propFiberZero none 3 false false 0).breakdown.get? 1 =
      some { factor := "fiber_proximity", raw_value := .num none,
             weight := 1/5, points := 8, unit := "miles" }) ∧
    calculate_fiber_proximity_points (some 0) = 100 := by
  constructor
  · norm_num [calculate_score, propFiberZero, minInf, orInf,
      calculate_fiber_proximity_points, wget, DEFAULT_WEIGHTS, round2, roundHalfEven]
  · norm_num [calculate_fiber_proximity_points]

/-- Claim C5 counterexample: a present median household income of
exactly 0 is scored 50 (the absent default), not the 25 the claim
assigns to present incomes below 45000. -/
theorem C5_counterexample :
    calculate_income_points (some 0) = 50 ∧ (50 : ℚ) ≠ 25 :=
  ⟨rfl, by norm_num⟩

/-- Claim C5 (amended): the income evaluator returns 50 for an absent
income and also for a present income of exactly 0 (`if not
median_income` treats 0 as unknown); for present nonzero incomes it
returns the thresholded values, with 25 for nonzero incomes strictly
below 45000. -/
theorem C5_amended :
    calculate_income_points none = 50 ∧ calculate_income_points (some 0) = 50 ∧
    ∀ m : ℚ, m ≠ 0 →
      ((110000 ≤ m → calculate_income_points (some m) = 100) ∧
       (85000 ≤ m → m < 110000 → calculate_income_points (some m) = 80) ∧
       (65000 ≤ m → m < 85000 → calculate_income_points (some m) = 60) ∧
       (45000 ≤ m → m < 65000 → calculate_income_points (some m) = 40) ∧
       (m < 45000 → calculate_income_points (some m) = 25)) := by
  refine ⟨rfl, rfl, fun m hm => ⟨?_, ?_, ?_, ?_, ?_⟩⟩ <;>
    intros <;> simp only [calculate_income_points, if_neg hm] <;>
    split_ifs <;> first | rfl | linarith

/-- Witness for C5_amended at concrete incomes. -/
theorem C5_witness :
    calculate_income_points (some 120000) = 100 ∧
      calculate_income_points (some 40000) = 25 :=
  ⟨(C5_amended.2.2 120000 (by norm_num)).1 (by norm_num),
   (C5_amended.2.2 40000 (by norm_num)).2.2.2.2 (by norm_num)⟩

/-- Claim C9: tier classification has closed lower bounds — score ≥ 75
is tier 1, 50 ≤ score < 75 is tier 2, score < 50 is tier 3 — and the
boundary cases 74.99, 75.00, 49.99, 50.00 classify as 2, 1, 3, 2. -/
theorem C9_tier_boundaries :
    (∀ s : ℚ,
      (75 ≤ s → determine_tier s = 1) ∧
      (50 ≤ s → s < 75 → determine_tier s = 2) ∧
      (s < 50 → determine_tier s = 3)) ∧
    determine_tier (7499/100) = 2 ∧ determine_tier 75 = 1 ∧
    determine_tier (4999/100) = 3 ∧ determine_tier 50 = 2 := by
  refine ⟨fun s => ⟨fun h => ?_, fun h1 h2 => ?_, fun h => ?_⟩, ?_, ?_, ?_, ?_⟩
  · simp [determine_tier, h]
  · have h75 : ¬ (75 ≤ s) := by linarith
    simp [determine_tier, h75, h1]
  · have h75 : ¬ (75 ≤ s) := by linarith
    have h50 : ¬ (50 ≤ s) := by linarith
    simp [determine_tier, h75, h50]
  all_goals norm_num [determine_tier]

/-- Witness for C9_tier_boundaries at a concrete score. -/
theorem C9_witness : determine_tier 80 = 1 :=
  (C9_tier_boundaries.1 80).1 (by norm_num)

/-- Claim C10: `recalculate_property_score` always scores with the
neutral defaults (weights omitted, relationship strength 3.0, HOA
flags false) and updates exactly the fields `score`, `tier`,
`score_breakdown`, `last_scored_at`, leaving every other field of the
record unchanged. -/
theorem C10_recalculate_frame (prop : Property) (now : ℚ) :
    (recalculate_property_score prop now).score =
      some (calculate_score prop none 3 false false now).total_score ∧
    (recalculate_property_score prop now).tier =
      some (calculate_score prop none 3 false false now).tier ∧
    (recalculate_property_score prop now).score_breakdown =
      some (calculate_score prop none 3 false false now).breakdown ∧
    (recalculate_property_score prop now).last_scored_at = some now ∧
    (recalculate_property_score prop now).name = prop.name ∧
    (recalculate_property_score prop now).property_type = prop.property_type ∧
    (recalculate_property_score prop now).county = prop.county ∧
    (recalculate_property_score prop now).units = prop.units ∧
    (recalculate_property_score prop now).lots = prop.lots ∧
    (recalculate_property_score prop now).break_ground_date = prop.break_ground_date ∧
    (recalculate_property_score prop now).fiber_distance_gvtc = prop.fiber_distance_gvtc ∧
    (recalculate_property_score prop now).fiber_distance_lease = prop.fiber_distance_lease ∧
    (recalculate_property_score prop now).competitor_count = prop.competitor_count ∧
    (recalculate_property_score prop now).median_income = prop.median_income ∧
    (recalculate_property_score prop now).population_density = prop.population_density ∧
    (recalculate_property_score prop now).nearby_schools = prop.nearby_schools ∧
    (recalculate_property_score prop now).nearby_libraries = prop.nearby_libraries ∧
    (recalculate_property_score prop now).notes = prop.notes :=
  ⟨rfl, rfl, rfl, rfl, rfl, rfl, rfl, rfl, rfl, rfl, rfl, rfl, rfl, rfl, rfl, rfl, rfl, rfl⟩

/-- Claim C7: for every input the breakdown has exactly 8 entries whose
factor identifiers appear in the fixed order, the 8th being
"relationship" for an MDU property and "hoa_readiness" for a
Subdivision property. -/
theorem C7_breakdown_factors (prop : Property) (wopt : Option WeightSet)
    (rs : ℚ) (hh hc : Bool) (now : ℚ) :
    ((calculate_score prop wopt rs hh hc now).breakdown.map FactorResult.factor =
      ["scale", "fiber_proximity", "competitors", "income", "density",
       "erate_anchors", "timing",
       if prop.property_type = .MDU then "relationship" else "hoa_readiness"]) ∧
    (calculate_score prop wopt rs hh hc now).breakdown.length = 8 := by
  cases h : prop.property_type <;> simp [calculate_score, h]

/-- Claim C6: with the default weight set (weights argument omitted)
the total score always lies in [0, 100]; the default weights of each
category sum to 1; and the clamp has no floor — a custom weight set
can drive the total score below 0 and that value is surfaced. -/
theorem C6_default_weights_score_bounds :
    (∀ (prop : Property) (rs : ℚ) (hh hc : Bool) (now : ℚ),
      0 ≤ (calculate_score prop none rs hh hc now).total_score ∧
        (calculate_score prop none rs hh hc now).total_score ≤ 100) ∧
    ((["scale", "fiber", "competitors", "income", "density", "erate", "timing",
        "relationship"].filterMap (DEFAULT_WEIGHTS .MDU)).sum = 1 ∧
     (["scale", "fiber", "competitors", "income", "density", "erate", "timing",
        "hoa_readiness"].filterMap (DEFAULT_WEIGHTS .SUBDIVISION)).sum = 1) ∧
    (∃ (prop : Property) (w : WeightSet) (rs : ℚ) (hh hc : Bool) (now : ℚ),
      (calculate_score prop (some w) rs hh hc now).total_score < 0) := by
  refine ⟨fun prop rs hh hc now => ?_, ⟨?_, ?_⟩, ?_⟩
  · obtain ⟨s1, s2⟩ := scale_points_mdu_range prop.units
    obtain ⟨s1', s2'⟩ := scale_points_sfu_range prop.lots
    obtain ⟨f1, f2⟩ := fiber_points_range
      (minInf (orInf prop.fiber_distance_gvtc) (orInf prop.fiber_distance_lease))
    obtain ⟨c1, c2⟩ := competitor_points_range prop.competitor_count
    obtain ⟨i1, i2⟩ := income_points_range prop.median_income
    obtain ⟨d1, d2⟩ := density_points_range prop.population_density
    obtain ⟨e1, e2⟩ := erate_points_range prop.nearby_schools prop.nearby_libraries
    obtain ⟨t1, t2⟩ := timing_points_range prop.break_ground_date now
    obtain ⟨r1, r2⟩ := relationship_points_range rs
    obtain ⟨h1, h2⟩ := hoa_points_range hh hc
    cases h : prop.property_type <;>
      · simp only [calculate_score, h, wget, DEFAULT_WEIGHTS, Option.getD]
        apply round2_bounds
        · exact le_min (by linarith) (by norm_num)
        · exact min_le_right _ _
  · norm_num [DEFAULT_WEIGHTS, List.filterMap]
  · norm_num [DEFAULT_WEIGHTS, List.filterMap]
  · refine ⟨{ property_type := .MDU }, fun _ => some (-1), 3, false, false, 0, ?_⟩
    norm_num [calculate_score, wget, minInf, orInf, calculate_scale_points_mdu,
      calculate_fiber_proximity_points, calculate_competitor_points,
      calculate_income_points, calculate_density_points, calculate_erate_points,
      calculate_timing_points, calculate_relationship_points, MIN_UNKNOWN_SCORE,
      round2, roundHalfEven]

/-- A custom weight set that omits every factor. -/
def emptyW : WeightSet := fun _ => none

/-- A Subdivision property with no data. -/
def subdivBare : Property := { property_type := .SUBDIVISION }

/-- Claim C4 counterexample: for a Subdivision property scored with a
custom weight set that omits every weight, the fiber weight used is
0.20 and the income weight used is 0.10 — the hard-coded per-factor
fallbacks of `weights.get(...)` — not the Subdivision defaults 0.15
and 0.15 the claim requires. -/
theorem C4_counterexample :
    ((calculate_score subdivBare (some emptyW) 3 false false 0).breakdown.map
        FactorResult.weight =
      [1/4, 1/5, 3/20, 1/10, 1/10, 1/10, 1/20, 1/20]) ∧
    DEFAULT_WEIGHTS .SUBDIVISION "fiber" = some (3/20) ∧
    DEFAULT_WEIGHTS .SUBDIVISION "income" = some (3/20) ∧
    ((1 : ℚ)/5 ≠ 3/20) ∧ ((1 : ℚ)/10 ≠ 3/20) := by
  refine ⟨?_, rfl, rfl, by norm_num, by norm_num⟩
  norm_num [calculate_score, subdivBare, emptyW, wget]

/-- Claim C4 (amended): when a caller-supplied weight set omits a
factor's weight, the engine falls back to a fixed per-factor constant
(0.25, 0.20, 0.15, 0.10, 0.10, 0.10, 0.05, 0.05 — the MDU default
fractions) regardless of the property's category; in particular a
missing "fiber" weight always yields 0.20 and a missing "income"
weight always yields 0.10, for Subdivision properties as well. -/
theorem C4_amended (prop : Property) (w : WeightSet) (rs : ℚ) (hh hc : Bool) (now : ℚ) :
    (w "fiber" = none →
      ((calculate_score prop (some w) rs hh hc now).breakdown.get? 1).map
        FactorResult.weight = some (1/5)) ∧
    (w "income" = none →
      ((calculate_score prop (some w) rs hh hc now).breakdown.get? 3).map
        FactorResult.weight = some (1/10)) := by
  constructor <;> intro h <;> cases ht : prop.property_type <;>
    simp [calculate_score, ht, wget, h]

/-- Witness for C4_amended: the omitted-weights Subdivision scoring
call uses fiber weight 0.20. -/
theorem C4_witness :
    ((calculate_score subdivBare (some emptyW) 3 false false 0).breakdown.get? 1).map
      FactorResult.weight = some (1/5) :=
  (C4_amended subdivBare emptyW 3 false false 0).1 rfl

/-- A cost record whose take rate is present and exactly 0. -/
def costZeroTake : PropertyCost := { estimated_take_rate := some 0, arpu := some 60 }

/-- Claim C2 counterexample: with take rate present and equal to 0,
ARPU 60 and scale count 100 all present, the derived monthly revenue
is `None` — not the 0 the claim requires for a present zero input. -/
theorem C2_counterexample :
    (calculate_derived_costs costZeroTake mdu100).estimated_monthly_revenue = none ∧
    costZeroTake.estimated_take_rate = some 0 ∧
    costZeroTake.arpu = some 60 ∧
    unit_count mdu100 = some 100 :=
  ⟨rfl, rfl, rfl, rfl⟩

/-- Claim C2 (amended): estimated monthly revenue equals scale count ×
normalized take rate × ARPU exactly when take rate, ARPU and scale
count are all present AND nonzero (Python truthiness), and is null
when any of the three is absent or equal to 0. -/
theorem C2_amended (cost : PropertyCost) (prop : Property) :
    ((calculate_derived_costs cost prop).estimated_monthly_revenue ≠ none ↔
      ∃ t a n, cost.estimated_take_rate = some t ∧ cost.arpu = some a ∧
        unit_count prop = some n ∧ t ≠ 0 ∧ a ≠ 0 ∧ n ≠ 0) ∧
    (∀ t a n, cost.estimated_take_rate = some t → cost.arpu = some a →
      unit_count prop = some n → t ≠ 0 → a ≠ 0 → n ≠ 0 →
      (calculate_derived_costs cost prop).estimated_monthly_revenue =
        some ((n : ℚ) * normalize_take_rate t * a)) := by
  cases ht : cost.estimated_take_rate <;> cases ha : cost.arpu <;>
    cases hn : unit_count prop <;>
    simp [calculate_derived_costs, ht, ha, hn] <;> (try simp_all)

/-- A cost record with take rate 0.20 and ARPU 60 and no build costs. -/
def costRev : PropertyCost := { estimated_take_rate := some (1/5), arpu := some 60 }

/-- Witness for C2_amended: 100 units × 0.20 × 60 = 1200. -/
theorem C2_witness :
    (calculate_derived_costs costRev mdu100).estimated_monthly_revenue = some 1200 := by
  have h := (C2_amended costRev mdu100).2 (1/5) 60 100 rfl rfl rfl
    (by norm_num) (by norm_num) (by norm_num)
  rw [h]; norm_num [normalize_take_rate]

/-- Claim C3 counterexample: with every build-cost component absent the
total capex is 0 (known and computable), the monthly revenue is 1200
(> 0, so monthly profit is 1200 > 0), yet payback_months is `None`
instead of the floor(0 / 1200) = 0 the claim requires: the Python guard
`and cost.total_capex` treats a 0 capex as falsy. -/
theorem C3_counterexample :
    (calculate_derived_costs costRev mdu100).total_capex = some 0 ∧
    (calculate_derived_costs costRev mdu100).estimated_monthly_revenue = some 1200 ∧
    (calculate_derived_costs costRev mdu100).payback_months = none := by
  refine ⟨?_, ?_, ?_⟩ <;>
    norm_num [calculate_derived_costs, costRev, mdu100, unit_count, normalize_take_rate]

/-- Claim C3 (amended): when the derived monthly revenue is a present,
positive value r and the (always computed, nonnegative) total capex is
nonzero, payback_months = floor(capex ÷ (r − lease)); payback_months
is null when monthly profit r − lease ≤ 0 and also when total capex
equals 0. -/
theorem C3_amended (cost : PropertyCost) (prop : Property) (r capex : ℚ)
    (hrev : (calculate_derived_costs cost prop).estimated_monthly_revenue = some r)
    (hcap : (calculate_derived_costs cost prop).total_capex = some capex)
    (hge : 0 ≤ capex) :
    (0 < r → capex ≠ 0 → 0 < r - cost.lease_monthly.getD 0 →
      (calculate_derived_costs cost prop).payback_months =
        some ⌊capex / (r - cost.lease_monthly.getD 0)⌋) ∧
    (r - cost.lease_monthly.getD 0 ≤ 0 →
      (calculate_derived_costs cost prop).payback_months = none) ∧
    (capex = 0 → (calculate_derived_costs cost prop).payback_months = none) := by
  simp only [calculate_derived_costs] at hrev hcap ⊢
  rw [Option.some.injEq] at hcap
  rw [hrev, hcap]
  simp only [Option.getD_some]
  refine ⟨fun hr hc hp => ?_, fun hp => ?_, fun hc => ?_⟩
  · rw [if_pos ⟨ne_of_gt hr, hr, hc⟩, if_pos hp,
      pyTrunc_of_nonneg _ (div_nonneg hge (le_of_lt hp))]
  · by_cases hcond : r ≠ 0 ∧ 0 < r ∧ capex ≠ 0
    · rw [if_pos hcond, if_neg (not_lt.2 hp)]
    · rw [if_neg hcond]
  · simp [hc]

/-- The spec's concrete financial example: build_cost 100000, other
build costs 0, lease 0, take rate 0.20, ARPU 60. -/
def costBuild100k : PropertyCost :=
  { build_cost := some 100000, lateral_cost := some 0, make_ready_cost := some 0,
    drop_cost := some 0, equipment_cost := some 0, lease_monthly := some 0,
    estimated_take_rate := some (1/5), arpu := some 60 }

/-- Witness for C3_amended at the spec's concrete example: revenue
1200 and payback floor(100000 / 1200) = 83. -/
theorem C3_witness :
    (calculate_derived_costs costBuild100k mdu100).estimated_monthly_revenue = some 1200 ∧
    (calculate_derived_costs costBuild100k mdu100).payback_months = some 83 := by
  have hrev : (calculate_derived_costs costBuild100k mdu100).estimated_monthly_revenue =
      some 1200 := by
    norm_num [calculate_derived_costs, costBuild100k, mdu100, unit_count, normalize_take_rate]
  have hcap : (calculate_derived_costs costBuild100k mdu100).total_capex = some 100000 := by
    norm_num [calculate_derived_costs, costBuild100k, mdu100, unit_count, normalize_take_rate]
  refine ⟨hrev, ?_⟩
  have h := (C3_amended costBuild100k mdu100 1200 100000 hrev hcap (by norm_num)).1
    (by norm_num) (by norm_num) (by norm_num [costBuild100k])
  rw [h]
  norm_num [costBuild100k]

/-- Claim C8: the take-rate normalization divides values > 1 by 100
and leaves values ≤ 1 unchanged, so take_rate = 20 and take_rate =
0.20 produce identical estimated monthly revenue for every ARPU and
scale count. -/
theorem C8_take_rate_normalization :
    (∀ t : ℚ, 1 < t → normalize_take_rate t = t / 100) ∧
    (∀ t : ℚ, t ≤ 1 → normalize_take_rate t = t) ∧
    (∀ (cost : PropertyCost) (prop : Property),
      (calculate_derived_costs { cost with estimated_take_rate := some 20 }
          prop).estimated_monthly_revenue =
        (calculate_derived_costs { cost with estimated_take_rate := some (1/5) }
          prop).estimated_monthly_revenue) := by
  refine ⟨fun t h => by simp [normalize_take_rate, h], fun t h => ?_, fun cost prop => ?_⟩
  · simp [normalize_take_rate, not_lt.2 h]
  · cases ha : cost.arpu <;> cases hn : unit_count prop <;>
      simp [calculate_derived_costs, ha, hn, normalize_take_rate] <;> norm_num

/-- Witness for C8_take_rate_normalization: a percentage take rate of
20 normalizes to the fraction 0.20. -/
theorem C8_witness : normalize_take_rate 20 = 1/5 := by
  rw [C8_take_rate_normalization.1 20 (by norm_num)]; norm_num

end Fiber
